import Mathlib

/-!
# Verification of the API key checker core

A shallow embedding of the Python sources `api_validators.py`, `main.py` and
`app.py` of the `Api_Key_checker` repository, together with theorems settling
the specification claims about them.

Modelling conventions:
* Python strings are `List Char` (`chars s` converts a Lean literal).
* The HTTP client behaviour is a parameter: a probe observes an
  `HttpOutcome`, either a transport-level exception (`requests.RequestException`,
  carrying its message) or a response with a status code and a body.
  A response body either fails to parse as JSON (for `requests >= 2.27`,
  `response.json()` then raises `requests.exceptions.JSONDecodeError`, a
  subclass of `RequestException`, carrying the decode message) or parses to a
  `Json` value.
* Python exceptions that escape a `try` block are modelled with
  `Except PyExn`; `PyExn` covers the dynamic-typing failures reachable in this
  code (`TypeError` from `x in data` on a non-container, `AttributeError`
  from `.get` on a non-dict).
* `str.lower` / `str.strip` are modelled on their ASCII fragment, which covers
  every provider identifier and whitespace form used by the claims.
-/

/-- Convert a Lean string literal to the `List Char` model of Python strings. -/
def chars (s : String) : List Char := s.data

/-- ASCII fragment of Python's `str.isspace` set used by `str.strip`. -/
def isPySpace (c : Char) : Bool :=
  c = ' ' || c = '\t' || c = '\n' || c = '\r' || c = '\x0b' || c = '\x0c'

/-- Python `str.lstrip()` (ASCII whitespace fragment). -/
def pyLstrip (s : List Char) : List Char := s.dropWhile isPySpace

/-- Python `str.rstrip()` (ASCII whitespace fragment). -/
def pyRstrip (s : List Char) : List Char := (s.reverse.dropWhile isPySpace).reverse

/-- Python `str.strip()` (ASCII whitespace fragment). -/
def pyStrip (s : List Char) : List Char := pyRstrip (pyLstrip s)

/-- Python `str.lower()` on the ASCII fragment (provider identifiers are ASCII). -/
def pyLower (s : List Char) : List Char := s.map Char.toLower

/-- Python substring test `needle in hay` on strings. -/
def pySubstr (needle : List Char) : List Char → Bool
  | [] => needle.isEmpty
  | c :: rest => needle.isPrefixOf (c :: rest) || pySubstr needle rest

/-- Parsed JSON values, as returned by `response.json()`. -/
inductive Json where
  | null : Json
  | bool (b : Bool) : Json
  | num (n : Int) : Json
  | str (s : List Char) : Json
  | arr (elems : List Json) : Json
  | obj (fields : List (List Char × Json)) : Json

/-- Python exceptions reachable in this code that are not caught by
`except requests.RequestException`. -/
inductive PyExn where
  | typeError : PyExn
  | attributeError : PyExn
deriving DecidableEq

/-- A response body: either text that fails JSON parsing (with the decode
error message) or a parsed `Json` value. -/
inductive RespBody where
  | malformed (msg : List Char) : RespBody
  | parsed (j : Json) : RespBody

/-- Observable behaviour of one HTTP probe: a transport exception (with its
`str(e)` message) or a response.  For the AWS validator, whose probe is a
boto3 STS call rather than an HTTP request, `.resp` models a successful call
and `.exn` an exception with message `str(e)`. -/
inductive HttpOutcome where
  | exn (msg : List Char) : HttpOutcome
  | resp (status : Nat) (body : RespBody) : HttpOutcome

/-- The validator classes defined in `api_validators.py`. -/
inductive ProviderTag where
  | openai | github | google | aws | huggingface | claude | gemini
  | grok | cohere | perplexity | replicate | togetherai | anthropic
deriving DecidableEq

/-! ## Format patterns

Every `FORMAT_PATTERN` in the source has the shape
`^lit[class]{n,}$` or `^lit[class]{n}$` (the GitHub and Gemini patterns are
alternations of two such branches), and no character class contains `'\n'`.
`re.match` anchors at the start; the final `$` matches at the end of the
string or just before a newline that is at the end of the string. -/

/-- One alternation branch of a `FORMAT_PATTERN`: literal prefix, character
class, lower repetition bound, and whether the bound is exact (`{n}`)
or a minimum (`{n,}`). -/
structure Pat where
  lit : List Char
  cc : Char → Bool
  lo : Nat
  exact : Bool

/-- `[A-Za-z0-9\-]` -/
def ccAlnumHyphen (c : Char) : Bool :=
  ('A' ≤ c && c ≤ 'Z') || ('a' ≤ c && c ≤ 'z') || ('0' ≤ c && c ≤ '9') || c = '-'

/-- `[A-Za-z0-9_]` -/
def ccAlnumUnd (c : Char) : Bool :=
  ('A' ≤ c && c ≤ 'Z') || ('a' ≤ c && c ≤ 'z') || ('0' ≤ c && c ≤ '9') || c = '_'

/-- `[0-9A-Za-z\-_]` (also written `[A-Za-z0-9_\-]`) -/
def ccAlnumHyphenUnd (c : Char) : Bool :=
  ('A' ≤ c && c ≤ 'Z') || ('a' ≤ c && c ≤ 'z') || ('0' ≤ c && c ≤ '9') || c = '-' || c = '_'

/-- `[0-9A-Z]` -/
def ccUpperDigit (c : Char) : Bool :=
  ('A' ≤ c && c ≤ 'Z') || ('0' ≤ c && c ≤ '9')

/-- `[a-z0-9\-]` -/
def ccLowerDigitHyphen (c : Char) : Bool :=
  ('a' ≤ c && c ≤ 'z') || ('0' ≤ c && c ≤ '9') || c = '-'

/-- `[a-z0-9]` -/
def ccLowerDigit (c : Char) : Bool :=
  ('a' ≤ c && c ≤ 'z') || ('0' ≤ c && c ≤ '9')

/-- Match one branch against the whole string: literal prefix, then the
remainder entirely inside the class with the length constraint. -/
def matchCore (p : Pat) (s : List Char) : Bool :=
  p.lit.isPrefixOf s &&
    (let t := s.drop p.lit.length
     t.all p.cc && (if p.exact then t.length = p.lo else decide (p.lo ≤ t.length)))

/-- Anchored full-string match of an alternation of branches: the meaning the
spec ascribes to the patterns ("matching is anchored (full-string)"). -/
def fullMatch (ps : List Pat) (s : List Char) : Bool :=
  ps.any (fun p => matchCore p s)

/-- `bool(re.match(pattern, s))` for the patterns of this code base: the
final `$` also matches just before a single newline at the end of the
string (Python semantics, `re.MULTILINE` off). -/
def pyReMatch (ps : List Pat) (s : List Char) : Bool :=
  ps.any (fun p =>
    matchCore p s || (s.getLast? = some '\n' && matchCore p s.dropLast))

/-- The alternation branches of each validator's `FORMAT_PATTERN`. -/
def patsOf : ProviderTag → List Pat
  | .openai => [⟨chars "sk-", ccAlnumHyphen, 20, false⟩]            -- ^sk-[A-Za-z0-9\-]{20,}$
  | .github => [⟨chars "ghp_", ccAlnumUnd, 36, false⟩,
                ⟨chars "github_pat_", ccAlnumUnd, 36, false⟩]       -- ^(ghp_|github_pat_)[A-Za-z0-9_]{36,}$
  | .google => [⟨chars "AIza", ccAlnumHyphenUnd, 35, true⟩]         -- ^AIza[0-9A-Za-z\-_]{35}$
  | .aws => [⟨chars "AKIA", ccUpperDigit, 16, true⟩]                -- ^AKIA[0-9A-Z]{16}$
  | .huggingface => [⟨chars "hf_", ccAlnumUnd, 34, false⟩]          -- ^hf_[A-Za-z0-9_]{34,}$
  | .claude => [⟨chars "sk-ant-", ccAlnumHyphenUnd, 70, false⟩]     -- ^sk-ant-[A-Za-z0-9\-_]{70,}$
  | .gemini => [⟨chars "AIza", ccAlnumHyphenUnd, 35, true⟩,
                ⟨[], ccAlnumHyphenUnd, 40, false⟩]                  -- ^AIza[0-9A-Za-z\-_]{35}$|^[A-Za-z0-9_\-]{40,}$
  | .grok => [⟨chars "xai-", ccAlnumHyphenUnd, 20, false⟩]          -- ^xai-[A-Za-z0-9\-_]{20,}$
  | .cohere => [⟨[], ccLowerDigitHyphen, 36, true⟩]                 -- ^[a-z0-9\-]{36}$
  | .perplexity => [⟨chars "pplx-", ccAlnumHyphenUnd, 40, false⟩]   -- ^pplx-[A-Za-z0-9\-_]{40,}$
  | .replicate => [⟨[], ccLowerDigit, 40, true⟩]                    -- ^[a-z0-9]{40}$
  | .togetherai => [⟨[], ccLowerDigit, 40, true⟩]                   -- ^[a-z0-9]{40}$
  | .anthropic => [⟨chars "sk-ant-", ccAlnumHyphenUnd, 60, false⟩]  -- ^sk-ant-[A-Za-z0-9\-_]{60,}$

/-- `validate_format` of the validator class tagged `v`:
`bool(re.match(FORMAT_PATTERN, key))`. -/
def validate_format (v : ProviderTag) (key : List Char) : Bool :=
  pyReMatch (patsOf v) key


/-! ## Liveness probes (`test_key`)

Each `test_key` wraps one request in
`try: ... except requests.RequestException as e: return False, str(e)`.
The return value is modelled as `Except PyExn (Bool × Option Json)`:
`.ok (is_active, error)` is the Python two-tuple (plain string messages are
wrapped as `Json.str`; the Google validator can return a raw JSON value as its
error), `.error e` is a Python exception escaping the `try` block. -/

/-- `f"HTTP {response.status_code}"`. -/
def httpMsg (status : Nat) : List Char := chars "HTTP " ++ (Nat.repr status).data

/-- The shared body of the OpenAI/GitHub/HuggingFace/Claude/Grok/Cohere/
Perplexity/Replicate/TogetherAI/Anthropic `test_key` methods, which differ
only in the endpoint (not modelled) and the 401 message:
200 ↦ `(True, None)`, 401 ↦ `(False, msg401)`,
other status ↦ `(False, f"HTTP {code}")`, transport exception `e` ↦
`(False, str(e))`.  These methods read only `response.status_code`. -/
def simple_test_key (msg401 : List Char) (o : HttpOutcome) : Except PyExn (Bool × Option Json) :=
  match o with
  | .exn m => .ok (false, some (.str m))
  | .resp status _ =>
    if status = 200 then .ok (true, none)
    else if status = 401 then .ok (false, some (.str msg401))
    else .ok (false, some (.str (httpMsg status)))

/-- Python `needle in data` where `needle` is a string and `data` the parsed
JSON body: key containment for a dict, element equality for a list, substring
for a string; `TypeError` for `int`/`bool`/`None`. -/
def pyContains (needle : List Char) : Json → Except PyExn Bool
  | .obj fields => .ok (fields.any (fun kv => kv.1 == needle))
  | .arr elems => .ok (elems.any (fun j => match j with
      | .str s => s == needle
      | _ => false))
  | .str s => .ok (pySubstr needle s)
  | _ => .error .typeError

/-- Python `data.get(k, dflt)`: dict lookup with default; `AttributeError`
when `data` is not a dict. -/
def pyDictGet (k : List Char) (dflt : Json) : Json → Except PyExn Json
  | .obj fields =>
    .ok (match fields.find? (fun kv => kv.1 == k) with
         | some kv => kv.2
         | none => dflt)
  | _ => .error .attributeError

/-- `GoogleValidator.test_key`: calls `response.json()` first (a decode
failure raises `requests.exceptions.JSONDecodeError`, caught as a
`RequestException`), then on HTTP 200 returns `(True, None)` iff
`"error_message" not in data`, else `(False, data.get("error_message", "API returned error"))`;
on any other status `(False, f"HTTP {code}")`. -/
def google_test_key (o : HttpOutcome) : Except PyExn (Bool × Option Json) :=
  match o with
  | .exn m => .ok (false, some (.str m))
  | .resp status body =>
    match body with
    | .malformed m => .ok (false, some (.str m))
    | .parsed data =>
      if status = 200 then
        match pyContains (chars "error_message") data with
        | .error e => .error e
        | .ok contained =>
          if contained then
            match pyDictGet (chars "error_message") (.str (chars "API returned error")) data with
            | .error e => .error e
            | .ok v => .ok (false, some v)
          else .ok (true, none)
      else .ok (false, some (.str (httpMsg status)))

/-- `GeminiValidator.test_key`: 200 ↦ `(True, None)`,
400 ↦ `(False, "Invalid API key format")`,
403 ↦ `(False, "Forbidden - API not enabled or key invalid")`,
other status ↦ `(False, f"HTTP {code}")`, transport exception ↦ message. -/
def gemini_test_key (o : HttpOutcome) : Except PyExn (Bool × Option Json) :=
  match o with
  | .exn m => .ok (false, some (.str m))
  | .resp status _ =>
    if status = 200 then .ok (true, none)
    else if status = 400 then .ok (false, some (.str (chars "Invalid API key format")))
    else if status = 403 then .ok (false, some (.str (chars "Forbidden - API not enabled or key invalid")))
    else .ok (false, some (.str (httpMsg status)))

/-- `AWSValidator.test_key`: a boto3 STS `get_caller_identity` call inside
`try: ... except Exception as e`; a successful call yields `(True, None)`,
an exception message containing `"InvalidClientTokenId"` or
`"SignatureDoesNotMatch"` yields `(False, "Invalid credentials")`, one
containing `"NoCredentialsError"` yields
`(False, "AWS credentials not configured properly")`, otherwise
`(False, str(e))`.  `except Exception` catches everything, so this never
raises. -/
def aws_test_key (o : HttpOutcome) : Except PyExn (Bool × Option Json) :=
  match o with
  | .resp _ _ => .ok (true, none)
  | .exn m =>
    if pySubstr (chars "InvalidClientTokenId") m || pySubstr (chars "SignatureDoesNotMatch") m then
      .ok (false, some (.str (chars "Invalid credentials")))
    else if pySubstr (chars "NoCredentialsError") m then
      .ok (false, some (.str (chars "AWS credentials not configured properly")))
    else .ok (false, some (.str m))

/-- Dispatch `validator.test_key` by validator class.  The 401 messages are
taken verbatim from each class in `api_validators.py`. -/
def test_key (v : ProviderTag) (o : HttpOutcome) : Except PyExn (Bool × Option Json) :=
  match v with
  | .openai => simple_test_key (chars "Unauthorized - invalid key") o
  | .github => simple_test_key (chars "Unauthorized - invalid token") o
  | .google => google_test_key o
  | .aws => aws_test_key o
  | .huggingface => simple_test_key (chars "Unauthorized - invalid token") o
  | .claude => simple_test_key (chars "Unauthorized - invalid API key") o
  | .gemini => gemini_test_key o
  | .grok => simple_test_key (chars "Unauthorized - invalid API key") o
  | .cohere => simple_test_key (chars "Unauthorized - invalid API key") o
  | .perplexity => simple_test_key (chars "Unauthorized - invalid API key") o
  | .replicate => simple_test_key (chars "Unauthorized - invalid token") o
  | .togetherai => simple_test_key (chars "Unauthorized - invalid API key") o
  | .anthropic => simple_test_key (chars "Unauthorized - invalid API key") o


/-! ## Result records and the `main.py` aggregator -/

/-- The uniform per-key result dictionary built by `validate_single_key`
(`main.py`) and the Flask endpoints (`app.py`): fields in construction
order.  `error` holds the raw second component of `test_key` (a JSON value,
`Json.str` for the plain message strings). -/
structure Result where
  api_type : List Char
  key_preview : List Char
  format_valid : Bool
  is_active : Bool
  status : List Char
  error : Option Json

/-- Python `str(x)` for a parsed JSON value, used by the f-string
`f"... - {error}"`.  Strings pass through; containers are rendered
structurally (`repr` of elements, which no claim inspects). -/
def pyStrOfJson : Json → List Char
  | .null => chars "None"
  | .bool true => chars "True"
  | .bool false => chars "False"
  | .num n => (Int.repr n).data
  | .str s => s
  | .arr elems => chars "[" ++ pyStrOfJsonList elems ++ chars "]"
  | .obj fields => chars "\x7b" ++ pyStrOfJsonFields fields ++ chars "\x7d"
where
  pyStrOfJsonList : List Json → List Char
    | [] => []
    | [j] => pyStrOfJson j
    | j :: rest => pyStrOfJson j ++ chars ", " ++ pyStrOfJsonList rest
  pyStrOfJsonFields : List (List Char × Json) → List Char
    | [] => []
    | [kv] => kv.1 ++ chars ": " ++ pyStrOfJson kv.2
    | kv :: rest => kv.1 ++ chars ": " ++ pyStrOfJson kv.2 ++ chars ", " ++ pyStrOfJsonFields rest

/-- Render the `error` slot inside an f-string (`None` when null). -/
def fmtErr : Option Json → List Char
  | none => chars "None"
  | some j => pyStrOfJson j

/-- The redacted preview `key[:10] + "***" if len(key) > 10 else "***"`
(`main.py` line 44 and `app.py` lines 72/118, same expression). -/
def key_preview (key : List Char) : List Char :=
  if 10 < key.length then key.take 10 ++ chars "***" else chars "***"

/-- Assoc-list lookup modelling a Python dict built by a literal
(`validators.get(k)` / `validators[k]`). -/
def lookupTag (reg : List (List Char × ProviderTag)) (k : List Char) : Option ProviderTag :=
  match reg.find? (fun kv => kv.1 == k) with
  | some kv => some kv.2
  | none => none

/-- The validator dictionary built inside `get_validator` (`main.py`). -/
def mainRegistry : List (List Char × ProviderTag) :=
  [(chars "openai", .openai), (chars "github", .github), (chars "google", .google),
   (chars "aws", .aws), (chars "huggingface", .huggingface)]

/-- `get_validator(api_type)` (`main.py`): dict lookup on
`api_type.lower()`; `dict.get` gives `None` for a missing key. -/
def get_validator (api_type : List Char) : Option ProviderTag :=
  lookupTag mainRegistry (pyLower api_type)

/-- The supported-identifier list printed by `validate_single_key`
(`main.py` line 39). -/
def mainIds : List (List Char) :=
  [chars "openai", chars "github", chars "google", chars "aws", chars "huggingface"]

/-- `", ".join(ids)`. -/
def joinComma : List (List Char) → List Char
  | [] => []
  | [s] => s
  | s :: rest => s ++ chars ", " ++ joinComma rest

/-- The second line printed by `validate_single_key` for an unknown API type:
`f"   Supported types: {', '.join([...])}"` (`main.py` line 39). -/
def mainSupportedLine : List Char :=
  chars "   Supported types: " ++ joinComma mainIds

/-- The two lines printed by `validate_single_key` for an unknown API type
(`main.py` lines 38-39). -/
def mainUnknownLines (api_type : List Char) : List (List Char) :=
  [chars "❌ Unknown API type: " ++ api_type, mainSupportedLine]

/-- The result dictionary that `validate_single_key` builds once the
validator is resolved (`main.py` lines 42-62): `format_valid` from
`validate_format`; if it holds, probe with `test_key` and set
`is_active`/`error`/`status`, else status `"❌ Invalid format"`.
An exception escaping `test_key` propagates (`.error`). -/
def mainBuildResult (env : List Char → HttpOutcome) (key api_type : List Char)
    (v : ProviderTag) : Except PyExn Result :=
  if validate_format v key then
    match test_key v (env key) with
    | .error e => .error e
    | .ok (is_active, err) =>
      .ok { api_type := api_type, key_preview := key_preview key,
            format_valid := true, is_active := is_active,
            status := if is_active then chars "✅ Valid and Active"
                      else chars "❌ Invalid/Inactive - " ++ fmtErr err,
            error := err }
  else
    .ok { api_type := api_type, key_preview := key_preview key,
          format_valid := false, is_active := false,
          status := chars "❌ Invalid format", error := none }

/-- `validate_single_key(key, api_type)` (`main.py`), including the lines it
prints: for an unknown API type it prints the two-line message and returns
`None`; otherwise it builds the result record (printing nothing). -/
def validate_single_key_full (env : List Char → HttpOutcome) (key api_type : List Char) :
    Option (Except PyExn Result) × List (List Char) :=
  match get_validator api_type with
  | none => (none, mainUnknownLines api_type)
  | some v => (some (mainBuildResult env key api_type v), [])

/-- The return value of `validate_single_key(key, api_type)` (`main.py`). -/
def validate_single_key (env : List Char → HttpOutcome) (key api_type : List Char) :
    Option (Except PyExn Result) :=
  (validate_single_key_full env key api_type).1

/-- `validate_batch_keys(keys_data, api_type)` (`main.py`), list branch (the
file branch reads keys from disk and is outside this model): for each key
with non-empty `key.strip()`, run `validate_single_key` on the stripped key
and append its result when it is not `None`; an exception aborts the loop. -/
def validate_batch_keys (env : List Char → HttpOutcome) (keys : List (List Char))
    (api_type : List Char) : Except PyExn (List Result) :=
  match keys with
  | [] => .ok []
  | k :: rest =>
    if (pyStrip k).isEmpty then validate_batch_keys env rest api_type
    else
      match validate_single_key env (pyStrip k) api_type with
      | none => validate_batch_keys env rest api_type
      | some (.error e) => .error e
      | some (.ok r) => (validate_batch_keys env rest api_type).map (r :: ·)

/-! ## The `app.py` Flask endpoints -/

/-- The module-level `validators` dictionary of `app.py` (12 entries;
`AnthropicValidator` is imported but not registered). -/
def appRegistry : List (List Char × ProviderTag) :=
  [(chars "openai", .openai), (chars "github", .github), (chars "google", .google),
   (chars "aws", .aws), (chars "huggingface", .huggingface), (chars "claude", .claude),
   (chars "gemini", .gemini), (chars "grok", .grok), (chars "cohere", .cohere),
   (chars "perplexity", .perplexity), (chars "replicate", .replicate),
   (chars "togetherai", .togetherai)]

/-- The keys of the `validators` dictionary, in insertion order. -/
def webIds : List (List Char) :=
  [chars "openai", chars "github", chars "google", chars "aws", chars "huggingface",
   chars "claude", chars "gemini", chars "grok", chars "cohere", chars "perplexity",
   chars "replicate", chars "togetherai"]

/-- `validators[api_type.lower()]`-style lookup used by both endpoints. -/
def app_get_validator (api_type : List Char) : Option ProviderTag :=
  lookupTag appRegistry (pyLower api_type)

/-- `f'Unknown API type. Supported: {", ".join(validators.keys())}'`. -/
def appUnknownMsg : List Char :=
  chars "Unknown API type. Supported: " ++ joinComma webIds

/-- Observable outcome of the `/api/validate` endpoint. -/
inductive AppSingleResp where
  | clientError (code : Nat) (msg : List Char) : AppSingleResp
  | result (r : Result) : AppSingleResp
  | raised (e : PyExn) : AppSingleResp

/-- The result dictionary that both `app.py` endpoints build for a resolved
validator and (already stripped) key (`app.py` lines 70-87 and 115-132):
identical to `main.py`'s except for the status strings
(`'Valid and Active ✅'`, `f'Invalid/Inactive - {error}'`, `'Invalid format'`). -/
def appBuildResult (env : List Char → HttpOutcome) (key api_type : List Char)
    (v : ProviderTag) : Except PyExn Result :=
  if validate_format v key then
    match test_key v (env key) with
    | .error e => .error e
    | .ok (is_active, err) =>
      .ok { api_type := api_type, key_preview := key_preview key,
            format_valid := true, is_active := is_active,
            status := if is_active then chars "Valid and Active ✅"
                      else chars "Invalid/Inactive - " ++ fmtErr err,
            error := err }
  else
    .ok { api_type := api_type, key_preview := key_preview key,
          format_valid := false, is_active := false,
          status := chars "Invalid format", error := none }

/-- The `/api/validate` endpoint (`app.py` `validate_key`):
`api_type = data.get('api_type', '').lower()`, `key = data.get('key', '').strip()`;
400 when either is empty; 400 with the supported list for an unknown type;
otherwise the result record. -/
def app_validate_key (env : List Char → HttpOutcome) (api_type_in key_in : List Char) :
    AppSingleResp :=
  let api_type := pyLower api_type_in
  let key := pyStrip key_in
  if api_type.isEmpty || key.isEmpty then
    .clientError 400 (chars "Missing api_type or key")
  else
    match lookupTag appRegistry api_type with
    | none => .clientError 400 appUnknownMsg
    | some v =>
      match appBuildResult env key api_type v with
      | .error e => .raised e
      | .ok r => .result r

/-- Observable outcome of the `/api/batch-validate` endpoint. -/
inductive AppBatchResp where
  | clientError (code : Nat) (msg : List Char) : AppBatchResp
  | results (rs : List Result) : AppBatchResp
  | raised (e : PyExn) : AppBatchResp

/-- The per-key loop of `batch_validate` (`app.py` lines 110-134): keys with
empty `key.strip()` are skipped, each other key is validated on its stripped
form; an exception aborts the loop. -/
def appBatchLoop (env : List Char → HttpOutcome) (api_type : List Char) (v : ProviderTag) :
    List (List Char) → Except PyExn (List Result)
  | [] => .ok []
  | k :: rest =>
    if (pyStrip k).isEmpty then appBatchLoop env api_type v rest
    else
      match appBuildResult env (pyStrip k) api_type v with
      | .error e => .error e
      | .ok r => (appBatchLoop env api_type v rest).map (r :: ·)

/-- The `/api/batch-validate` endpoint (`app.py` `batch_validate`): 400 when
the lowered api_type is empty or the key list is empty; 400 with the
supported list for an unknown type; otherwise the list of result records. -/
def app_batch_validate (env : List Char → HttpOutcome) (api_type_in : List Char)
    (keys : List (List Char)) : AppBatchResp :=
  let api_type := pyLower api_type_in
  if api_type.isEmpty || keys.isEmpty then
    .clientError 400 (chars "Missing api_type or keys")
  else
    match lookupTag appRegistry api_type with
    | none => .clientError 400 appUnknownMsg
    | some v =>
      match appBatchLoop env api_type v keys with
      | .error e => .raised e
      | .ok rs => .results rs


/-! ## Shared lemmas -/

/-- Dropping a while-prefix ignores a leading block whose elements all
satisfy the predicate. -/
theorem dropWhile_append_of_all {p : Char → Bool} {l₁ l₂ : List Char}
    (h : l₁.all p = true) : (l₁ ++ l₂).dropWhile p = l₂.dropWhile p := by
  induction l₁ with
  | nil => rfl
  | cons c rest ih =>
    simp only [List.all_cons, Bool.and_eq_true] at h
    simp only [List.cons_append, List.dropWhile_cons, h.1, if_true]
    exact ih h.2

/-- `pyRstrip` ignores a trailing all-whitespace block. -/
theorem pyRstrip_append_all {ws k : List Char} (h : ws.all isPySpace = true) :
    pyRstrip (k ++ ws) = pyRstrip k := by
  unfold pyRstrip
  rw [List.reverse_append, dropWhile_append_of_all (by rwa [List.all_reverse])]

/-- `pyStrip` ignores surrounding all-whitespace padding. -/
theorem pyStrip_pad {ws₁ ws₂ k : List Char}
    (h₁ : ws₁.all isPySpace = true) (h₂ : ws₂.all isPySpace = true) :
    pyStrip (ws₁ ++ k ++ ws₂) = pyStrip k := by
  unfold pyStrip pyLstrip
  rw [List.append_assoc, dropWhile_append_of_all h₁]
  rw [List.dropWhile_append]
  by_cases hk : (k.dropWhile isPySpace).isEmpty = true
  · rw [if_pos hk]
    rw [List.isEmpty_iff] at hk
    rw [hk]
    have : ws₂.dropWhile isPySpace = [] := by
      rw [List.dropWhile_eq_nil_iff]
      intro x hx
      exact List.all_eq_true.mp h₂ x hx
    rw [this]
  · rw [if_neg hk]
    exact pyRstrip_append_all h₂

/-- `List.any` of a pointwise disjunction splits. -/
theorem any_or_split {α : Type} (l : List α) (f g : α → Bool) :
    l.any (fun a => f a || g a) = (l.any f || l.any g) := by
  induction l with
  | nil => rfl
  | cons a rest ih =>
    simp only [List.any_cons, ih]
    cases f a <;> cases g a <;> cases rest.any f <;> cases rest.any g <;> rfl

/-! ## Claim theorems -/

/-- C9 (counterexample): the claim's concrete example is wrong: the preview
of `"sk-abcdefghijklmno"` is its first 10 characters plus `"***"`, i.e.
`"sk-abcdefg***"`, not the claimed `"sk-abcdefgh***"` (11 characters). -/
theorem preview_example_counterexample :
    key_preview (chars "sk-abcdefghijklmno") = chars "sk-abcdefg***" ∧
    chars "sk-abcdefg***" ≠ chars "sk-abcdefgh***" :=
  ⟨rfl, by decide⟩

/-- C9 (amended): the preview is deterministic: first 10 characters plus
`"***"` for keys longer than 10 characters, exactly `"***"` otherwise; in
particular `preview("sk-abcdefghijklmno") = "sk-abcdefg***"` and
`preview("short") = "***"`. -/
theorem preview_amended :
    (∀ k : List Char, 10 < k.length → key_preview k = k.take 10 ++ chars "***")
    ∧ (∀ k : List Char, k.length ≤ 10 → key_preview k = chars "***")
    ∧ key_preview (chars "sk-abcdefghijklmno") = chars "sk-abcdefg***"
    ∧ key_preview (chars "short") = chars "***" := by
  refine ⟨fun k h => ?_, fun k h => ?_, rfl, rfl⟩
  · unfold key_preview
    rw [if_pos h]
  · unfold key_preview
    rw [if_neg (by omega)]

/-- C9 (witness): both branches of `preview_amended` at concrete keys. -/
theorem preview_amended_witness :
    key_preview (chars "sk-abcdefghijklmno") =
        (chars "sk-abcdefghijklmno").take 10 ++ chars "***"
    ∧ key_preview (chars "short") = chars "***" :=
  ⟨preview_amended.1 (chars "sk-abcdefghijklmno") (by decide),
   preview_amended.2.1 (chars "short") (by decide)⟩

/-- C8 (counterexample): `"anthropic"` is in the spec's enumerated
ProviderId set but resolves in neither registry; the CLI registry also
lacks `"claude"` and the other web-only identifiers. -/
theorem registry_anthropic_counterexample :
    app_get_validator (chars "anthropic") = none
    ∧ get_validator (chars "anthropic") = none
    ∧ get_validator (chars "claude") = none :=
  ⟨rfl, rfl, rfl⟩

/-- C8 (amended): lookup lowercases its input (case-insensitive); the web
registry resolves exactly the 12 identifiers of `webIds` (no `anthropic`,
whose validator class exists but is never registered), and the CLI registry
resolves exactly the 5 identifiers of `mainIds`. -/
theorem registry_resolution_amended :
    (∀ s₁ s₂ : List Char, pyLower s₁ = pyLower s₂ →
        app_get_validator s₁ = app_get_validator s₂)
    ∧ (∀ s₁ s₂ : List Char, pyLower s₁ = pyLower s₂ →
        get_validator s₁ = get_validator s₂)
    ∧ webIds.all (fun i => (app_get_validator i).isSome) = true
    ∧ mainIds.all (fun i => (get_validator i).isSome) = true
    ∧ app_get_validator (chars "anthropic") = none
    ∧ get_validator (chars "anthropic") = none := by
  refine ⟨fun s₁ s₂ h => ?_, fun s₁ s₂ h => ?_, by decide, by decide, rfl, rfl⟩
  · unfold app_get_validator
    rw [h]
  · unfold get_validator
    rw [h]

/-- C8 (witness): case-insensitive lookup at concrete mixed-case inputs. -/
theorem registry_resolution_amended_witness :
    app_get_validator (chars "OpenAI") = app_get_validator (chars "openai")
    ∧ get_validator (chars "GOOGLE") = get_validator (chars "google") :=
  ⟨registry_resolution_amended.1 (chars "OpenAI") (chars "openai") (by decide),
   registry_resolution_amended.2.1 (chars "GOOGLE") (chars "google") (by decide)⟩

/-- C1: in both the CLI single-key check and the web single-key endpoint,
any produced result with `is_active = true` has `format_valid = true`, and
when the format check fails the outcome does not depend on the HTTP client
behaviour at all (the liveness probe is never invoked). -/
theorem active_implies_format_valid :
    (∀ (env : List Char → HttpOutcome) (key api_type : List Char) (r : Result),
        validate_single_key env key api_type = some (.ok r) →
        r.is_active = true → r.format_valid = true)
    ∧ (∀ (env env' : List Char → HttpOutcome) (key api_type : List Char) (v : ProviderTag),
        get_validator api_type = some v → validate_format v key = false →
        validate_single_key env key api_type = validate_single_key env' key api_type)
    ∧ (∀ (env : List Char → HttpOutcome) (api_in key_in : List Char) (r : Result),
        app_validate_key env api_in key_in = .result r →
        r.is_active = true → r.format_valid = true)
    ∧ (∀ (env env' : List Char → HttpOutcome) (api_in key_in : List Char) (v : ProviderTag),
        lookupTag appRegistry (pyLower api_in) = some v →
        validate_format v (pyStrip key_in) = false →
        app_validate_key env api_in key_in = app_validate_key env' api_in key_in) := by
  refine ⟨?_, ?_, ?_, ?_⟩
  · intro env key api_type r h hact
    unfold validate_single_key validate_single_key_full at h
    cases hv : get_validator api_type with
    | none => rw [hv] at h; exact absurd h (by simp)
    | some v =>
      rw [hv] at h
      simp only [Option.some.injEq] at h
      unfold mainBuildResult at h
      by_cases hf : validate_format v key = true
      · rw [if_pos hf] at h
        cases ht : test_key v (env key) with
        | error e => rw [ht] at h; exact absurd h (by simp)
        | ok p =>
          rw [ht] at h
          cases h.symm
          rfl
      · rw [if_neg hf] at h
        cases h.symm
        exact absurd hact (by simp)
  · intro env env' key api_type v hv hf
    unfold validate_single_key validate_single_key_full
    rw [hv]
    dsimp only
    unfold mainBuildResult
    rw [if_neg (by simp [hf]), if_neg (by simp [hf])]
  · intro env api_in key_in r h hact
    unfold app_validate_key at h
    by_cases hm : (pyLower api_in).isEmpty || (pyStrip key_in).isEmpty
    · simp only [hm, if_true] at h
      exact absurd h (by simp)
    · simp only [hm, Bool.false_eq_true, if_false] at h
      cases hv : lookupTag appRegistry (pyLower api_in) with
      | none => rw [hv] at h; exact absurd h (by simp)
      | some v =>
        rw [hv] at h
        dsimp only at h
        cases hb : appBuildResult env (pyStrip key_in) (pyLower api_in) v with
        | error e => rw [hb] at h; exact absurd h (by simp)
        | ok r' =>
          rw [hb] at h
          simp only [AppSingleResp.result.injEq] at h
          cases h
          unfold appBuildResult at hb
          by_cases hf : validate_format v (pyStrip key_in) = true
          · rw [if_pos hf] at hb
            cases ht : test_key v (env (pyStrip key_in)) with
            | error e => rw [ht] at hb; exact absurd hb (by simp)
            | ok p =>
              rw [ht] at hb
              simp only [Except.ok.injEq] at hb
              cases hb
              rfl
          · rw [if_neg hf] at hb
            simp only [Except.ok.injEq] at hb
            cases hb
            exact absurd hact (by simp)
  · intro env env' api_in key_in v hv hf
    have hb : appBuildResult env (pyStrip key_in) (pyLower api_in) v =
        appBuildResult env' (pyStrip key_in) (pyLower api_in) v := by
      unfold appBuildResult
      rw [if_neg (by simp [hf]), if_neg (by simp [hf])]
    unfold app_validate_key
    by_cases hm : (pyLower api_in).isEmpty || (pyStrip key_in).isEmpty
    · simp only [hm, if_true]
    · simp only [hm, Bool.false_eq_true, if_false]
      rw [hv]
      dsimp only
      rw [hb]

/-- C1 (witness): a 200-mocked probe on a well-formed OpenAI key yields an
active result whose `format_valid` is forced to `true`, and a format-invalid
key gives the same outcome under two different client behaviours. -/
theorem active_implies_format_valid_witness :
    ({ api_type := chars "openai", key_preview := chars "sk-aaaaaaa***",
       format_valid := true, is_active := true,
       status := chars "✅ Valid and Active", error := none } : Result).format_valid = true
    ∧ validate_single_key (fun _ => .resp 200 (.parsed .null)) (chars "bad") (chars "openai") =
        validate_single_key (fun _ => .exn (chars "boom")) (chars "bad") (chars "openai") :=
  ⟨active_implies_format_valid.1 (fun _ => .resp 200 (.parsed .null))
      (chars "sk-aaaaaaaaaaaaaaaaaaaa") (chars "openai") _ rfl rfl,
   active_implies_format_valid.2.1 (fun _ => .resp 200 (.parsed .null))
      (fun _ => .exn (chars "boom")) (chars "bad") (chars "openai") .openai rfl (by decide)⟩

/-- C7: an unknown provider identifier makes the CLI single-key check print
the two-line "Unknown API type" message (whose second line lists every
supported identifier) and return `None` for every client behaviour and key
(so no probe is attempted and nothing is raised); the CLI batch check then
prints that message for each non-blank key and returns the empty result
list, again for every client behaviour; the web single and batch endpoints
both answer `400` with a message listing their supported identifiers.
`"notreal"` is unknown to both registries. -/
theorem unknown_provider_errors :
    (∀ api_type : List Char, get_validator api_type = none →
        ∀ (env : List Char → HttpOutcome) (key : List Char),
          validate_single_key_full env key api_type = (none, mainUnknownLines api_type))
    ∧ mainIds.all (fun i => pySubstr i mainSupportedLine) = true
    ∧ (∀ api_in : List Char, lookupTag appRegistry (pyLower api_in) = none →
        (pyLower api_in).isEmpty = false →
        ∀ (env : List Char → HttpOutcome) (key_in : List Char),
          (pyStrip key_in).isEmpty = false →
          app_validate_key env api_in key_in = .clientError 400 appUnknownMsg)
    ∧ webIds.all (fun i => pySubstr i appUnknownMsg) = true
    ∧ get_validator (chars "notreal") = none
    ∧ lookupTag appRegistry (pyLower (chars "notreal")) = none
    ∧ (∀ api_type : List Char, get_validator api_type = none →
        ∀ (env : List Char → HttpOutcome) (keys : List (List Char)),
          validate_batch_keys env keys api_type = .ok [])
    ∧ (∀ api_in : List Char, lookupTag appRegistry (pyLower api_in) = none →
        (pyLower api_in).isEmpty = false →
        ∀ (env : List Char → HttpOutcome) (keys : List (List Char)),
          keys.isEmpty = false →
          app_batch_validate env api_in keys = .clientError 400 appUnknownMsg) := by
  refine ⟨?_, by decide, ?_, by decide, rfl, rfl, ?_, ?_⟩
  · intro api_type hv env key
    unfold validate_single_key_full
    rw [hv]
  · intro api_in hv ha env key_in hk
    unfold app_validate_key
    rw [if_neg (by simp [ha, hk]), hv]
  · intro api_type hv env keys
    induction keys with
    | nil => rfl
    | cons k rest ih =>
      have hsk : validate_single_key env (pyStrip k) api_type = none := by
        unfold validate_single_key validate_single_key_full
        rw [hv]
      unfold validate_batch_keys
      by_cases he : (pyStrip k).isEmpty = true
      · rw [if_pos he]
        exact ih
      · rw [if_neg he, hsk]
        exact ih
  · intro api_in hv ha env keys hk
    unfold app_batch_validate
    rw [if_neg (by simp [ha, hk]), hv]

/-- C7 (witness): the unknown identifier `"notreal"` at concrete inputs,
for all four entry points. -/
theorem unknown_provider_errors_witness :
    validate_single_key_full (fun _ => .resp 200 (.parsed .null)) (chars "sk-x") (chars "notreal") =
        (none, mainUnknownLines (chars "notreal"))
    ∧ app_validate_key (fun _ => .resp 200 (.parsed .null)) (chars "notreal") (chars "sk-x") =
        .clientError 400 appUnknownMsg
    ∧ validate_batch_keys (fun _ => .resp 200 (.parsed .null)) [chars "sk-x"] (chars "notreal") =
        .ok []
    ∧ app_batch_validate (fun _ => .resp 200 (.parsed .null)) (chars "notreal") [chars "sk-x"] =
        .clientError 400 appUnknownMsg := by
  obtain ⟨h1, -, h3, -, -, -, h7, h8⟩ := unknown_provider_errors
  exact ⟨h1 (chars "notreal") rfl (fun _ => .resp 200 (.parsed .null)) (chars "sk-x"),
         h3 (chars "notreal") rfl (by decide)
           (fun _ => .resp 200 (.parsed .null)) (chars "sk-x") (by decide),
         h7 (chars "notreal") rfl (fun _ => .resp 200 (.parsed .null)) [chars "sk-x"],
         h8 (chars "notreal") rfl (by decide)
           (fun _ => .resp 200 (.parsed .null)) [chars "sk-x"] (by decide)⟩

/-- C3 (counterexample): the Gemini validator has no 401 branch: a mocked
401 yields `(false, "HTTP 401")`, which does not contain "Unauthorized",
contradicting the claim's universal 401 ↦ "Unauthorized"-message case. -/
theorem gemini_401_counterexample :
    test_key .gemini (.resp 401 (.parsed .null)) =
        .ok (false, some (.str (chars "HTTP 401")))
    ∧ pySubstr (chars "Unauthorized") (chars "HTTP 401") = false :=
  ⟨rfl, by decide⟩

/-- C3 (amended): every HTTP-probing `test_key` classifies the outcome into
exactly one of: 200 ↦ `(true, null)`; a provider-specific error branch
(401 ↦ the per-provider "Unauthorized - ..." message for every provider
except Gemini and Google; Gemini instead maps 400 and 403 to its messages,
with 401 falling through to the generic case); any other status ↦
`(false, "HTTP <code>")`; transport failure ↦ `(false, str(e))`.  The
OpenAI validator on a mocked 401 yields `(false, "Unauthorized - invalid key")`.
Google deviates further because `response.json()` runs before the status
check: an unparseable body yields `(false, decode message)` at *any* status;
a parsed non-200 yields `(false, "HTTP <code>")`; a 200 object body yields
`(true, null)` iff it has no `"error_message"` field and otherwise
`(false, that field's value)`; a 200 non-container body raises instead of
classifying. -/
theorem probe_classification_amended :
    (∀ m : List Char, test_key .openai (.exn m) = .ok (false, some (.str m)))
    ∧ (∀ b : RespBody, test_key .openai (.resp 200 b) = .ok (true, none))
    ∧ (∀ b : RespBody, test_key .openai (.resp 401 b) =
        .ok (false, some (.str (chars "Unauthorized - invalid key"))))
    ∧ (∀ (s : Nat) (b : RespBody), s ≠ 200 → s ≠ 401 →
        test_key .openai (.resp s b) = .ok (false, some (.str (httpMsg s))))
    ∧ (∀ m : List Char, test_key .gemini (.exn m) = .ok (false, some (.str m)))
    ∧ (∀ b : RespBody, test_key .gemini (.resp 200 b) = .ok (true, none))
    ∧ (∀ b : RespBody, test_key .gemini (.resp 400 b) =
        .ok (false, some (.str (chars "Invalid API key format"))))
    ∧ (∀ b : RespBody, test_key .gemini (.resp 403 b) =
        .ok (false, some (.str (chars "Forbidden - API not enabled or key invalid"))))
    ∧ (∀ (s : Nat) (b : RespBody), s ≠ 200 → s ≠ 400 → s ≠ 403 →
        test_key .gemini (.resp s b) = .ok (false, some (.str (httpMsg s))))
    ∧ (∀ (msg401 m : List Char), simple_test_key msg401 (.exn m) = .ok (false, some (.str m)))
    ∧ (∀ (msg401 : List Char) (b : RespBody),
        simple_test_key msg401 (.resp 200 b) = .ok (true, none))
    ∧ (∀ (msg401 : List Char) (b : RespBody),
        simple_test_key msg401 (.resp 401 b) = .ok (false, some (.str msg401)))
    ∧ (∀ (msg401 : List Char) (s : Nat) (b : RespBody), s ≠ 200 → s ≠ 401 →
        simple_test_key msg401 (.resp s b) = .ok (false, some (.str (httpMsg s))))
    ∧ (∀ m : List Char, test_key .google (.exn m) = .ok (false, some (.str m)))
    ∧ (∀ (s : Nat) (m : List Char),
        test_key .google (.resp s (.malformed m)) = .ok (false, some (.str m)))
    ∧ (∀ (s : Nat) (j : Json), s ≠ 200 →
        test_key .google (.resp s (.parsed j)) = .ok (false, some (.str (httpMsg s))))
    ∧ (∀ fields : List (List Char × Json),
        fields.all (fun kv => !(kv.1 == chars "error_message")) = true →
        test_key .google (.resp 200 (.parsed (.obj fields))) = .ok (true, none))
    ∧ (∀ (fields : List (List Char × Json)) (v : Json),
        fields.any (fun kv => kv.1 == chars "error_message") = true →
        pyDictGet (chars "error_message") (.str (chars "API returned error")) (.obj fields) = .ok v →
        test_key .google (.resp 200 (.parsed (.obj fields))) = .ok (false, some v))
    ∧ test_key .google (.resp 200 (.parsed (.num 5))) = .error .typeError := by
  refine ⟨fun m => rfl, fun b => rfl, fun b => rfl, ?_, fun m => rfl, fun b => rfl,
          fun b => rfl, fun b => rfl, ?_, fun msg401 m => rfl, fun msg401 b => rfl,
          fun msg401 b => rfl, ?_, fun m => rfl, fun s m => rfl, ?_, ?_, ?_, rfl⟩
  · intro s b h200 h401
    unfold test_key simple_test_key
    dsimp only
    rw [if_neg h200, if_neg h401]
  · intro s b h200 h400 h403
    unfold test_key gemini_test_key
    dsimp only
    rw [if_neg h200, if_neg h400, if_neg h403]
  · intro msg401 s b h200 h401
    unfold simple_test_key
    dsimp only
    rw [if_neg h200, if_neg h401]
  · intro s j hs
    unfold test_key google_test_key
    dsimp only
    rw [if_neg hs]
  · intro fields hall
    unfold test_key google_test_key pyContains
    dsimp only
    rw [if_pos rfl]
    have hc : fields.any (fun kv => kv.1 == chars "error_message") = false := by
      by_contra hne
      rw [Bool.not_eq_false, List.any_eq_true] at hne
      obtain ⟨kv, hkv, hp⟩ := hne
      have := List.all_eq_true.mp hall kv hkv
      rw [hp] at this
      cases this
    rw [hc]
    rfl
  · intro fields v hany hget
    unfold test_key google_test_key
    dsimp only
    rw [if_pos rfl]
    unfold pyContains
    dsimp only
    rw [hany]
    rw [if_pos rfl]
    unfold pyDictGet at hget
    dsimp only at hget
    simp only [Except.ok.injEq] at hget
    unfold pyDictGet
    dsimp only
    rw [hget]

/-- C3 (witness): the generic-status cases at status 404/500, and the
Google cases at concrete statuses and bodies. -/
theorem probe_classification_amended_witness :
    test_key .openai (.resp 404 (.parsed .null)) =
        .ok (false, some (.str (chars "HTTP 404")))
    ∧ test_key .gemini (.resp 500 (.parsed .null)) =
        .ok (false, some (.str (chars "HTTP 500")))
    ∧ test_key .google (.resp 404 (.parsed .null)) =
        .ok (false, some (.str (chars "HTTP 404")))
    ∧ test_key .google (.resp 200 (.parsed (.obj []))) = .ok (true, none)
    ∧ test_key .google (.resp 200 (.parsed (.obj [(chars "error_message", .str (chars "denied"))]))) =
        .ok (false, some (.str (chars "denied"))) := by
  obtain ⟨-, -, -, h4, -, -, -, -, h9, -, -, -, -, -, -, h16, h17, h18, -⟩ :=
    probe_classification_amended
  exact ⟨h4 404 (.parsed .null) (by decide) (by decide),
         h9 500 (.parsed .null) (by decide) (by decide) (by decide),
         h16 404 .null (by decide),
         h17 [] (by decide),
         h18 [(chars "error_message", .str (chars "denied"))] (.str (chars "denied"))
           (by decide) rfl⟩

/-- C5: the Google `test_key` answers `(true, null)` on an object body
exactly when the status is 200 and no `"error_message"` field is present,
and on a 200 response whose object body has an `"error_message"` field it
answers `(false, v)` where `v` is that field's value
(`data.get("error_message", "API returned error")`). -/
theorem google_success_iff_no_error_field :
    (∀ (status : Nat) (fields : List (List Char × Json)),
        google_test_key (.resp status (.parsed (.obj fields))) = .ok (true, none) ↔
          status = 200 ∧
            fields.all (fun kv => !(kv.1 == chars "error_message")) = true)
    ∧ (∀ (fields : List (List Char × Json)) (v : Json),
        fields.any (fun kv => kv.1 == chars "error_message") = true →
        pyDictGet (chars "error_message") (.str (chars "API returned error")) (.obj fields) = .ok v →
        google_test_key (.resp 200 (.parsed (.obj fields))) = .ok (false, some v)) := by
  constructor
  · intro status fields
    constructor
    · intro h
      unfold google_test_key at h
      dsimp only at h
      by_cases hs : status = 200
      · subst hs
        rw [if_pos rfl] at h
        unfold pyContains at h
        dsimp only at h
        cases hc : fields.any (fun kv => kv.1 == chars "error_message") with
        | true =>
          rw [hc] at h
          rw [if_pos rfl] at h
          unfold pyDictGet at h
          dsimp only at h
          cases hg : fields.find? (fun kv => kv.1 == chars "error_message") with
          | none => rw [hg] at h; exact absurd h (by simp)
          | some kv => rw [hg] at h; exact absurd h (by simp)
        | false =>
          refine ⟨rfl, ?_⟩
          rw [List.all_eq_true]
          intro kv hkv
          by_contra hne
          have : fields.any (fun kv => kv.1 == chars "error_message") = true := by
            rw [List.any_eq_true]
            exact ⟨kv, hkv, by revert hne; cases (kv.1 == chars "error_message") <;> simp⟩
          rw [this] at hc
          cases hc
      · rw [if_neg hs] at h
        exact absurd h (by simp)

    · rintro ⟨hs, hall⟩
      subst hs
      unfold google_test_key pyContains
      dsimp only
      rw [if_pos rfl]
      have hc : fields.any (fun kv => kv.1 == chars "error_message") = false := by
        by_contra hne
        rw [Bool.not_eq_false, List.any_eq_true] at hne
        obtain ⟨kv, hkv, hp⟩ := hne
        have := List.all_eq_true.mp hall kv hkv
        rw [hp] at this
        cases this
      rw [hc]
      rfl
  · intro fields v hany hget
    unfold google_test_key
    dsimp only
    rw [if_pos rfl]
    unfold pyContains
    dsimp only
    rw [hany]
    rw [if_pos rfl]
    unfold pyDictGet at hget
    dsimp only at hget
    simp only [Except.ok.injEq] at hget
    unfold pyDictGet
    dsimp only
    rw [hget]

/-- C5 (witness): a 200 body carrying `"error_message": "quota"` yields
`(false, "quota")`, via the theorem at that concrete input. -/
theorem google_success_iff_witness :
    google_test_key (.resp 200 (.parsed (.obj [(chars "error_message", .str (chars "quota"))]))) =
      .ok (false, some (.str (chars "quota"))) :=
  google_success_iff_no_error_field.2 [(chars "error_message", .str (chars "quota"))]
    (.str (chars "quota")) (by decide) rfl

/-- Is a JSON value a string? (statement vocabulary for the amended C2). -/
def isStrJson : Json → Bool
  | .str _ => true
  | _ => false

/-- Does a `test_key` outcome have the documented two-tuple shape
`(is_active : bool, error : string or null)` (no exception escaping)? -/
def strOrNullShape : Except PyExn (Bool × Option Json) → Bool
  | .ok (_, none) => true
  | .ok (_, some (.str _)) => true
  | _ => false

/-- The response-body class on which the Google `test_key` is exception-free
and string-shaped: any body when the status is not 200; on a 200, an
unparseable body, an object body whose `"error_message"` field (if any) holds
a string, a string body, or an array body without the element
`"error_message"` (statement vocabulary for the amended C2). -/
def googleBodyOk (status : Nat) (body : RespBody) : Bool :=
  if status = 200 then
    match body with
    | .malformed _ => true
    | .parsed (.obj fields) =>
        fields.all (fun kv => !(kv.1 == chars "error_message") || isStrJson kv.2)
    | .parsed (.str s) => !(pySubstr (chars "error_message") s)
    | .parsed (.arr elems) =>
        !(elems.any (fun j => match j with | .str s => s == chars "error_message" | _ => false))
    | .parsed _ => false
  else true

/-- C2 (counterexample): the Google `test_key` raises past its boundary on a
mocked 200 response: a JSON number body makes `"error_message" not in data`
raise `TypeError`, and a string body containing `"error_message"` makes
`data.get(...)` raise `AttributeError`; neither is a
`requests.RequestException`, so neither is caught. -/
theorem test_key_raises_counterexample :
    google_test_key (.resp 200 (.parsed (.num 5))) = .error .typeError
    ∧ google_test_key (.resp 200 (.parsed (.str (chars "an error_message here")))) =
        .error .attributeError :=
  ⟨rfl, rfl⟩

/-- Shape helper: the shared simple `test_key` body never raises and always
returns `(bool, string-or-null)`. -/
theorem shape_simple (msg401 : List Char) (o : HttpOutcome) :
    strOrNullShape (simple_test_key msg401 o) = true := by
  cases o with
  | exn m => rfl
  | resp s b =>
    unfold simple_test_key
    dsimp only
    by_cases h200 : s = 200
    · rw [if_pos h200]; rfl
    · rw [if_neg h200]
      by_cases h401 : s = 401
      · rw [if_pos h401]; rfl
      · rw [if_neg h401]; rfl

/-- C2 (amended): for every provider except Google, `test_key` never raises
and always returns the two-tuple `(bool, string-or-null)` for every status,
body and transport failure; the Google `test_key` does so for every
transport failure and for every response in the `googleBodyOk` class (in
particular whenever a 200 body parses to an object whose `"error_message"`
value, if present, is a string), but can raise outside it. -/
theorem test_key_total_amended :
    (∀ v : ProviderTag, v ≠ .google →
        ∀ o : HttpOutcome, strOrNullShape (test_key v o) = true)
    ∧ (∀ m : List Char, strOrNullShape (google_test_key (.exn m)) = true)
    ∧ (∀ (status : Nat) (body : RespBody), googleBodyOk status body = true →
        strOrNullShape (google_test_key (.resp status body)) = true) := by
  refine ⟨?_, fun m => rfl, ?_⟩
  · intro v hv o
    cases v with
    | google => exact absurd rfl hv
    | aws =>
      cases o with
      | resp s b => rfl
      | exn m =>
        unfold test_key aws_test_key
        dsimp only
        by_cases h1 : (pySubstr (chars "InvalidClientTokenId") m
            || pySubstr (chars "SignatureDoesNotMatch") m) = true
        · rw [if_pos h1]; rfl
        · rw [if_neg h1]
          by_cases h2 : pySubstr (chars "NoCredentialsError") m = true
          · rw [if_pos h2]; rfl
          · rw [if_neg h2]; rfl
    | openai => exact shape_simple _ o
    | github => exact shape_simple _ o
    | huggingface => exact shape_simple _ o
    | claude => exact shape_simple _ o
    | gemini =>
      cases o with
      | exn m => rfl
      | resp s b =>
        unfold test_key gemini_test_key
        dsimp only
        by_cases h200 : s = 200
        · rw [if_pos h200]; rfl
        · rw [if_neg h200]
          by_cases h400 : s = 400
          · rw [if_pos h400]; rfl
          · rw [if_neg h400]
            by_cases h403 : s = 403
            · rw [if_pos h403]; rfl
            · rw [if_neg h403]; rfl
    | grok => exact shape_simple _ o
    | cohere => exact shape_simple _ o
    | perplexity => exact shape_simple _ o
    | replicate => exact shape_simple _ o
    | togetherai => exact shape_simple _ o
    | anthropic => exact shape_simple _ o
  · intro status body hok
    unfold googleBodyOk at hok
    unfold google_test_key
    dsimp only
    cases body with
    | malformed m => rfl
    | parsed data =>
      dsimp only
      by_cases hs : status = 200
      · subst hs
        rw [if_pos rfl] at hok
        rw [if_pos rfl]
        cases data with
        | null => exact Bool.noConfusion hok
        | bool b => exact Bool.noConfusion hok
        | num n => exact Bool.noConfusion hok
        | str s =>
          unfold pyContains
          dsimp only
          dsimp only at hok
          cases hps : pySubstr (chars "error_message") s with
          | false => rfl
          | true => rw [hps] at hok; exact Bool.noConfusion hok
        | arr elems =>
          unfold pyContains
          dsimp only
          dsimp only at hok
          cases hps : elems.any (fun j => match j with
              | Json.str s => s == chars "error_message" | _ => false) with
          | false => rfl
          | true => rw [hps] at hok; exact Bool.noConfusion hok
        | obj fields =>
          unfold pyContains
          dsimp only
          dsimp only at hok
          cases hc : fields.any (fun kv => kv.1 == chars "error_message") with
          | false => rfl
          | true =>
            rw [if_pos rfl]
            unfold pyDictGet
            dsimp only
            have hfs : (fields.find? (fun kv => kv.1 == chars "error_message")).isSome = true :=
              List.find?_isSome.mpr (List.any_eq_true.mp hc)
            obtain ⟨kv₀, hfind⟩ := Option.isSome_iff_exists.mp hfs
            rw [hfind]
            have hmem := List.mem_of_find?_eq_some hfind
            have hp := List.find?_some hfind
            have := List.all_eq_true.mp hok kv₀ hmem
            rw [hp] at this
            simp only [Bool.not_true, Bool.false_or] at this
            cases h2 : kv₀.2 with
            | str s => dsimp only; rw [h2]; rfl
            | null => rw [h2] at this; cases this
            | bool b => rw [h2] at this; cases this
            | num n => rw [h2] at this; cases this
            | arr l => rw [h2] at this; cases this
            | obj l => rw [h2] at this; cases this
      · rw [if_neg hs]
        rfl

/-- C2 (witness): the shape guarantee applied at a transport failure for
OpenAI and at a well-shaped Google 200 object body. -/
theorem test_key_total_amended_witness :
    strOrNullShape (test_key .openai (.exn (chars "connection refused"))) = true
    ∧ strOrNullShape (google_test_key
        (.resp 200 (.parsed (.obj [(chars "error_message", .str (chars "quota"))])))) = true :=
  ⟨test_key_total_amended.1 .openai (by decide) (.exn (chars "connection refused")),
   test_key_total_amended.2.2 200 (.parsed (.obj [(chars "error_message", .str (chars "quota"))]))
     (by decide)⟩

/-- `List.any` of a pointwise conjunction with a constant pulls the constant
out. -/
theorem any_and_const {α : Type} (l : List α) (c : Bool) (f : α → Bool) :
    l.any (fun a => c && f a) = (c && l.any f) := by
  induction l with
  | nil => cases c <;> rfl
  | cons a rest ih =>
    simp only [List.any_cons, ih]
    cases c <;> cases f a <;> cases rest.any f <;> rfl

/-- C4 (counterexample): `validate_format` is not an anchored full-string
match: Python's `$` also matches just before a trailing newline, so the
OpenAI validator accepts a well-formed key followed by `"\n"`, a string the
full-string reading of the pattern rejects. -/
theorem format_newline_counterexample :
    validate_format .openai (chars "sk-aaaaaaaaaaaaaaaaaaaa\n") = true
    ∧ fullMatch (patsOf .openai) (chars "sk-aaaaaaaaaaaaaaaaaaaa\n") = false :=
  ⟨by decide, by decide⟩

/-- C4 (amended): for every provider, `validate_format` is the pure
anchored match of the pattern in Python's `$` semantics: it accepts exactly
the full-string matches plus the strings whose single trailing newline is
removed by `$`; and whenever it returns false the single-key check's outcome
is independent of the HTTP client (no probe, no network I/O). -/
theorem format_match_amended :
    (∀ (v : ProviderTag) (s : List Char),
        validate_format v s =
          (fullMatch (patsOf v) s ||
            (s.getLast? = some '\n' && fullMatch (patsOf v) s.dropLast)))
    ∧ (∀ (env env' : List Char → HttpOutcome) (key api_type : List Char) (v : ProviderTag),
        get_validator api_type = some v → validate_format v key = false →
        validate_single_key env key api_type = validate_single_key env' key api_type) := by
  constructor
  · intro v s
    unfold validate_format pyReMatch fullMatch
    rw [any_or_split, any_and_const]
  · intro env env' key api_type v hv hf
    unfold validate_single_key validate_single_key_full
    rw [hv]
    dsimp only
    unfold mainBuildResult
    rw [if_neg (by simp [hf]), if_neg (by simp [hf])]

/-- C4 (witness): a format-invalid key gives the same single-key outcome
under two different client behaviours (no probe is made). -/
theorem format_match_amended_witness :
    validate_single_key (fun _ => .resp 200 (.parsed .null)) (chars "sk-short") (chars "openai") =
      validate_single_key (fun _ => .exn (chars "boom")) (chars "sk-short") (chars "openai") :=
  format_match_amended.2 (fun _ => .resp 200 (.parsed .null)) (fun _ => .exn (chars "boom"))
    (chars "sk-short") (chars "openai") .openai rfl (by decide)

/-- The result appended by one iteration of the `validate_batch_keys` loop
(nothing when `validate_single_key` returned `None`; statement vocabulary). -/
def okPart : Option (Except PyExn Result) → Option Result
  | some (.ok r) => some r
  | _ => none

/-- Does the `validate_batch_keys` iteration for `k` complete without a
Python exception? -/
def noRaise (env : List Char → HttpOutcome) (api_type k : List Char) : Bool :=
  match validate_single_key env (pyStrip k) api_type with
  | some (.error _) => false
  | _ => true

/-- The result appended by one iteration of the `batch_validate` loop
(statement vocabulary). -/
def appOkPart : Except PyExn Result → Option Result
  | .ok r => some r
  | .error _ => none

/-- Does the `batch_validate` iteration for `k` complete without a Python
exception? -/
def appNoRaise (env : List Char → HttpOutcome) (api_type : List Char) (v : ProviderTag)
    (k : List Char) : Bool :=
  match appBuildResult env (pyStrip k) api_type v with
  | .error _ => false
  | _ => true

/-- `validate_batch_keys` as a filter-then-map over the input order, when no
iteration raises. -/
theorem validate_batch_keys_law (env : List Char → HttpOutcome) (api_type : List Char)
    (keys : List (List Char)) (h : keys.all (noRaise env api_type) = true) :
    validate_batch_keys env keys api_type =
      .ok ((keys.filter (fun k => !(pyStrip k).isEmpty)).filterMap
            (fun k => okPart (validate_single_key env (pyStrip k) api_type))) := by
  induction keys with
  | nil => rfl
  | cons k rest ih =>
    rw [List.all_cons, Bool.and_eq_true] at h
    unfold validate_batch_keys
    by_cases he : (pyStrip k).isEmpty = true
    · rw [if_pos he]
      rw [List.filter_cons_of_neg (by simp [he])]
      exact ih h.2
    · rw [if_neg he]
      rw [List.filter_cons_of_pos (by simp [he])]
      cases hv : validate_single_key env (pyStrip k) api_type with
      | none =>
        rw [List.filterMap_cons, hv]
        dsimp only [okPart]
        exact ih h.2
      | some x =>
        cases x with
        | error e =>
          have := h.1
          unfold noRaise at this
          rw [hv] at this
          exact Bool.noConfusion this
        | ok r =>
          rw [List.filterMap_cons, hv]
          dsimp only [okPart]
          rw [ih h.2]
          rfl

/-- The `batch_validate` loop as a filter-then-map over the input order,
when no iteration raises. -/
theorem appBatchLoop_law (env : List Char → HttpOutcome) (api_type : List Char)
    (v : ProviderTag) (keys : List (List Char))
    (h : keys.all (appNoRaise env api_type v) = true) :
    appBatchLoop env api_type v keys =
      .ok ((keys.filter (fun k => !(pyStrip k).isEmpty)).filterMap
            (fun k => appOkPart (appBuildResult env (pyStrip k) api_type v))) := by
  induction keys with
  | nil => rfl
  | cons k rest ih =>
    rw [List.all_cons, Bool.and_eq_true] at h
    unfold appBatchLoop
    by_cases he : (pyStrip k).isEmpty = true
    · rw [if_pos he]
      rw [List.filter_cons_of_neg (by simp [he])]
      exact ih h.2
    · rw [if_neg he]
      rw [List.filter_cons_of_pos (by simp [he])]
      cases hv : appBuildResult env (pyStrip k) api_type v with
      | error e =>
        have := h.1
        unfold appNoRaise at this
        rw [hv] at this
        exact Bool.noConfusion this
      | ok r =>
        rw [List.filterMap_cons, hv]
        dsimp only [appOkPart]
        rw [ih h.2]
        rfl

/-- C6: both batch checks process exactly the keys whose stripped form is
non-empty, in input order, applying the single-key check to each stripped
key (provided no iteration raises); the concrete sequence
`["", " ", "k1", "k2"]` under `openai` yields exactly two results, for
`"k1"` then `"k2"`, whatever the client behaviour. -/
theorem batch_order_preserving :
    (∀ (env : List Char → HttpOutcome) (api_type : List Char) (keys : List (List Char)),
        keys.all (noRaise env api_type) = true →
        validate_batch_keys env keys api_type =
          .ok ((keys.filter (fun k => !(pyStrip k).isEmpty)).filterMap
                (fun k => okPart (validate_single_key env (pyStrip k) api_type))))
    ∧ (∀ (env : List Char → HttpOutcome) (api_in : List Char) (v : ProviderTag)
          (keys : List (List Char)),
        lookupTag appRegistry (pyLower api_in) = some v →
        keys.isEmpty = false →
        keys.all (appNoRaise env (pyLower api_in) v) = true →
        app_batch_validate env api_in keys =
          .results ((keys.filter (fun k => !(pyStrip k).isEmpty)).filterMap
                (fun k => appOkPart (appBuildResult env (pyStrip k) (pyLower api_in) v))))
    ∧ (∀ env : List Char → HttpOutcome,
        validate_batch_keys env [chars "", chars " ", chars "k1", chars "k2"] (chars "openai") =
          .ok [{ api_type := chars "openai", key_preview := chars "***",
                 format_valid := false, is_active := false,
                 status := chars "❌ Invalid format", error := none },
               { api_type := chars "openai", key_preview := chars "***",
                 format_valid := false, is_active := false,
                 status := chars "❌ Invalid format", error := none }])
    ∧ (∀ env : List Char → HttpOutcome,
        app_batch_validate env (chars "openai") [chars "", chars " ", chars "k1", chars "k2"] =
          .results [{ api_type := chars "openai", key_preview := chars "***",
                      format_valid := false, is_active := false,
                      status := chars "Invalid format", error := none },
                    { api_type := chars "openai", key_preview := chars "***",
                      format_valid := false, is_active := false,
                      status := chars "Invalid format", error := none }]) := by
  refine ⟨validate_batch_keys_law, ?_, fun env => rfl, fun env => rfl⟩
  intro env api_in v keys hv hne hall
  unfold app_batch_validate
  have hlow : (pyLower api_in).isEmpty = false := by
    by_contra hx
    rw [Bool.not_eq_false, List.isEmpty_iff] at hx
    rw [hx] at hv
    exact Option.noConfusion ((rfl : lookupTag appRegistry ([] : List Char) = none) ▸ hv)
  rw [if_neg (by simp [hlow, hne]), hv]
  dsimp only
  rw [appBatchLoop_law env (pyLower api_in) v keys hall]

/-- C6 (witness): the two laws at concrete inputs where nothing raises. -/
theorem batch_order_preserving_witness :
    validate_batch_keys (fun _ => .exn (chars "x")) [chars " ", chars "k1"] (chars "openai") =
      .ok (([chars " ", chars "k1"].filter (fun k => !(pyStrip k).isEmpty)).filterMap
            (fun k => okPart (validate_single_key (fun _ => .exn (chars "x")) (pyStrip k) (chars "openai"))))
    ∧ app_batch_validate (fun _ => .exn (chars "x")) (chars "openai") [chars "k1"] =
        .results (([chars "k1"].filter (fun k => !(pyStrip k).isEmpty)).filterMap
            (fun k => appOkPart (appBuildResult (fun _ => .exn (chars "x")) (pyStrip k)
              (pyLower (chars "openai")) .openai))) :=
  ⟨batch_order_preserving.1 (fun _ => .exn (chars "x")) (chars "openai")
      [chars " ", chars "k1"] (by decide),
   batch_order_preserving.2.1 (fun _ => .exn (chars "x")) (chars "openai") .openai
      [chars "k1"] (by decide) (by decide) (by decide)⟩

/-- C10: both batch entry points validate the whitespace-trimmed form of each
key, so padding a key with leading and trailing whitespace changes nothing:
the single-element batch on the padded key equals the batch on the key
itself (same verdict, same `key_preview`, same everything). -/
theorem batch_trim_invariance :
    (∀ (env : List Char → HttpOutcome) (api_type k ws₁ ws₂ : List Char),
        ws₁.all isPySpace = true → ws₂.all isPySpace = true →
        validate_batch_keys env [ws₁ ++ k ++ ws₂] api_type =
          validate_batch_keys env [k] api_type)
    ∧ (∀ (env : List Char → HttpOutcome) (api_in k ws₁ ws₂ : List Char),
        ws₁.all isPySpace = true → ws₂.all isPySpace = true →
        app_batch_validate env api_in [ws₁ ++ k ++ ws₂] =
          app_batch_validate env api_in [k]) := by
  constructor
  · intro env api_type k ws₁ ws₂ h₁ h₂
    unfold validate_batch_keys
    rw [pyStrip_pad h₁ h₂]
  · intro env api_in k ws₁ ws₂ h₁ h₂
    unfold app_batch_validate
    by_cases hm : ((pyLower api_in).isEmpty || ([ws₁ ++ k ++ ws₂] : List (List Char)).isEmpty) = true
    · rw [if_pos hm, if_pos (by simpa using hm)]
    · rw [if_neg hm, if_neg (by simpa using hm)]
      cases hv : lookupTag appRegistry (pyLower api_in) with
      | none => rfl
      | some v =>
        dsimp only
        unfold appBatchLoop
        rw [pyStrip_pad h₁ h₂]

/-- C10 (witness): padding `"sk-x"` with spaces and a newline leaves both
batch outcomes unchanged. -/
theorem batch_trim_invariance_witness :
    validate_batch_keys (fun _ => .exn (chars "x"))
        [chars "  " ++ chars "sk-x" ++ chars "\n"] (chars "openai") =
      validate_batch_keys (fun _ => .exn (chars "x")) [chars "sk-x"] (chars "openai")
    ∧ app_batch_validate (fun _ => .exn (chars "x")) (chars "openai")
        [chars "  " ++ chars "sk-x" ++ chars "\n"] =
      app_batch_validate (fun _ => .exn (chars "x")) (chars "openai") [chars "sk-x"] :=
  ⟨batch_trim_invariance.1 (fun _ => .exn (chars "x")) (chars "openai")
      (chars "sk-x") (chars "  ") (chars "\n") (by decide) (by decide),
   batch_trim_invariance.2 (fun _ => .exn (chars "x")) (chars "openai")
      (chars "sk-x") (chars "  ") (chars "\n") (by decide) (by decide)⟩
